import Mathlib

/-!
Verification of the grid trading engine in `grid_trading.py` (class `GridTrading`).

Modelling conventions:
* Python floats are modelled as exact rationals (`ℚ`); `round(x, d)` is
  modelled by `pyRound x d`, round-half-to-even scaled by `10^d`, matching
  Python's rounding rule on exact values.
* Exchange / file-system inputs (ticker price, balances, instrument rules,
  persisted state file, wall-clock times) are passed as explicit parameters.
* `None` is modelled by `Option`; a Python dict with fixed keys by a structure.
-/

namespace GridBot

/-- Round-half-to-even on `ℚ` to an integer, as Python's `round` does on exact
values: floor when the fractional part is below a half, ceil when above, and
break exact ties towards the even integer. -/
def rhe (x : ℚ) : ℤ :=
  if 2 * x < 2 * ⌊x⌋ + 1 then ⌊x⌋
  else if 2 * ⌊x⌋ + 1 < 2 * x then ⌊x⌋ + 1
  else if 2 ∣ ⌊x⌋ then ⌊x⌋ else ⌊x⌋ + 1

/-- Python's `round(x, d)` modelled on exact rationals. -/
def pyRound (x : ℚ) (d : ℕ) : ℚ :=
  (rhe (x * 10 ^ d) : ℚ) / 10 ^ d

theorem rhe_ge_floor (x : ℚ) : ⌊x⌋ ≤ rhe x := by
  unfold rhe; split_ifs <;> omega

theorem rhe_le_floor_add_one (x : ℚ) : rhe x ≤ ⌊x⌋ + 1 := by
  unfold rhe; split_ifs <;> omega

/-- Round-half-even is monotone. -/
theorem rhe_mono {x y : ℚ} (h : x ≤ y) : rhe x ≤ rhe y := by
  have hfl := Int.floor_le_floor h
  rcases lt_or_eq_of_le hfl with hf | hf
  · have h1 := rhe_le_floor_add_one x
    have h2 := rhe_ge_floor y
    omega
  · unfold rhe
    rw [hf]
    split_ifs <;> first | omega | linarith

/-- Monotonicity of `pyRound`. -/
theorem pyRound_mono {x y : ℚ} (d : ℕ) (h : x ≤ y) : pyRound x d ≤ pyRound y d := by
  unfold pyRound
  have hp : (0 : ℚ) < 10 ^ d := by positivity
  have hm := rhe_mono (mul_le_mul_of_nonneg_right h (le_of_lt hp))
  have : ((rhe (x * 10 ^ d) : ℤ) : ℚ) ≤ ((rhe (y * 10 ^ d) : ℤ) : ℚ) := by exact_mod_cast hm
  exact div_le_div_of_nonneg_right this (le_of_lt hp)

theorem rhe_intCast (n : ℤ) : rhe (n : ℚ) = n := by
  unfold rhe
  rw [Int.floor_intCast]
  norm_num

/-- If `x * 10^d` is an integer then rounding to `d` decimals returns `x`. -/
theorem pyRound_eq_self {x : ℚ} {d : ℕ} (h : (x * 10 ^ d).den = 1) :
    pyRound x d = x := by
  have hint : ((x * 10 ^ d).num : ℚ) = x * 10 ^ d := Rat.coe_int_num_of_den_eq_one h
  unfold pyRound
  rw [← hint, rhe_intCast, hint]
  have hp : (10 : ℚ) ^ d ≠ 0 := by positivity
  field_simp

/-- Order / trade side.  The code compares `trade['side']` against the
strings `'BUY'` and `'SELL'`. -/
inductive Side where
  | BUY
  | SELL
deriving DecidableEq, Repr

/-- The `profit_stats` dict initialised in `GridTrading.__init__`
(lines 46-52): total profit, trade counters and the per-grid profit list. -/
structure ProfitStats where
  total_profit : ℚ
  total_trades : ℕ
  buy_trades : ℕ
  sell_trades : ℕ
  grid_profits : List ℚ
deriving DecidableEq, Repr

/-- The fresh `profit_stats` value set in `__init__` lines 46-52. -/
def emptyStats : ProfitStats :=
  { total_profit := 0, total_trades := 0, buy_trades := 0, sell_trades := 0
    grid_profits := [] }

/-- A filled-order record as consumed by `update_trade_stats` /
`_handle_filled_order`: side, price, quantity and commission
(`trade.get('commission', 0)`). -/
structure Trade where
  side : Side
  price : ℚ
  qty : ℚ
  commission : ℚ
deriving DecidableEq, Repr

/-- Model of `GridTrading.update_trade_stats` (lines 470-488).  `avgPos` models the
result of `self.get_average_position_price()` (`none` = no position, in which
case the code falls back to the fill price itself via `or price`). -/
def update_trade_stats (s : ProfitStats) (t : Trade) (avgPos : Option ℚ) :
    ProfitStats :=
  let s1 := { s with total_trades := s.total_trades + 1 }
  let s2 :=
    if t.side = Side.BUY then { s1 with buy_trades := s1.buy_trades + 1 }
    else { s1 with sell_trades := s1.sell_trades + 1 }
  if t.side = Side.SELL then
    let avg_cost := avgPos.getD t.price
    let profit := (t.price - avg_cost) * t.qty - t.commission
    { s2 with total_profit := s2.total_profit + profit
              grid_profits := s2.grid_profits ++ [profit] }
  else s2

/-- The realized-profit amount a SELL fill adds, per lines 484-488. -/
def sellProfit (t : Trade) (avgPos : Option ℚ) : ℚ :=
  (t.price - avgPos.getD t.price) * t.qty - t.commission

/-- Volatility-tier selection from `generate_grid_parameters` lines 140-148:
`ratio < 0.02 → 20`, `elif ratio < 0.05 → 15`, `else → 10`. -/
def numGridsOfRatio (ratio : ℚ) : ℕ :=
  if ratio < 2/100 then 20
  else if ratio < 5/100 then 15
  else 10

/-- Python's `%` on rationals (for a positive divisor):
`a % b = a - b * ⌊a / b⌋`. -/
def pyMod (a b : ℚ) : ℚ := a - b * ⌊a / b⌋

/-- Model of `GridTrading._adjust_quantity` (lines 292-302).  `step_size_decimal`
models `len(str(float(step_size)).split('.')[-1])`, which the code derives
from the step's printed form; it is passed as a parameter because `str` of a
float is outside the rational model.  For a step written as a finite decimal
in positional notation (e.g. `0.01`) it equals the number of fractional
digits, so `step_size * 10 ^ step_size_decimal` is an integer. -/
def adjust_quantity (quantity min_qty step_size : ℚ)
    (step_size_decimal : ℕ) : ℚ :=
  let q1 := max min_qty quantity
  let q2 := pyRound (q1 - pyMod q1 step_size) step_size_decimal
  max min_qty q2

/-- Model of `GridTrading._generate_grid_prices` (lines 168-185), with the
configuration bounds `self.lower_price` / `self.upper_price` passed
explicitly.  Each price is rounded to 8 decimals (`round(grid_price, 8)`,
line 183). -/
def generate_grid_prices (lower_price upper_price center_price grid_step : ℚ)
    (num_grids : ℕ) : List ℚ :=
  let half_range := (num_grids * grid_step) / 2
  let start_price := max lower_price (center_price - half_range)
  let end_price := min upper_price (center_price + half_range)
  let actual_range := end_price - start_price
  let actual_step := actual_range / num_grids
  (List.range (num_grids + 1)).map
    (fun i : ℕ => pyRound (start_price + (i : ℚ) * actual_step) 8)

/-- Model of `GridTrading.generate_grid_parameters` (lines 133-166) on the
no-position path (`current_positions = None`): tier selection from
`atr / current_price`, step from the configured range, center = current
price clamped into the configured bounds.  The division `atr /
current_price` is totalized here (`x / 0 = 0` in Lean) whereas the source
raises `ZeroDivisionError` at `current_price = 0`; theorems about this
function therefore carry a `0 < current_price` guard. -/
def generate_grid_parameters (lower_price upper_price current_price atr : ℚ) :
    List ℚ :=
  let volatility_ratio := atr / current_price
  let num_grids := numGridsOfRatio volatility_ratio
  let grid_range := upper_price - lower_price
  let grid_step := grid_range / num_grids
  let grid_center := min (max current_price lower_price) upper_price
  generate_grid_prices lower_price upper_price grid_center grid_step num_grids

/-- An order as returned by `_place_order` in test mode (lines 316-325):
side, submitted (tick-rounded) price and quantity.  Symbol, type and
time-in-force are constants and omitted. -/
structure Order where
  side : Side
  price : ℚ
  quantity : ℚ
deriving DecidableEq, Repr

/-- Exchange instrument rules consumed by `place_grid_orders`
(lines 212-218): LOT_SIZE min quantity and step, and the price precision
derived from the PRICE_FILTER tick size.  The two decimal counts model
the `len(str(...))` computations of lines 298 and 313. -/
structure InstrumentRules where
  min_qty : ℚ
  qty_step : ℚ
  qty_step_decimals : ℕ
  price_decimals : ℕ
deriving Repr

/-- One iteration of the order-placement loop of `place_grid_orders`
(lines 224-284) for the adjacent pair `(lower, upper)`: decide sides from
the current ticker price, skip prices already used (`created_order_prices`),
and append the orders `_place_order` returns (test mode: placement always
succeeds, with the price rounded to the tick precision, lines 313-325). -/
def placePairOrders (current_price quantity : ℚ) (p : ℕ)
    (lower upper : ℚ) (acc : List Order × List ℚ) : List Order × List ℚ :=
  let orders := acc.1
  let created := acc.2
  if current_price > upper ∧ upper ∉ created then
    (orders ++ [⟨Side.BUY, pyRound upper p, quantity⟩], created ++ [upper])
  else if current_price < lower ∧ lower ∉ created then
    (orders ++ [⟨Side.SELL, pyRound lower p, quantity⟩], created ++ [lower])
  else
    let acc1 :=
      if lower ∉ created then
        (orders ++ [⟨Side.BUY, pyRound lower p, quantity⟩], created ++ [lower])
      else (orders, created)
    if upper ∉ acc1.2 then
      (acc1.1 ++ [⟨Side.SELL, pyRound upper p, quantity⟩], acc1.2 ++ [upper])
    else acc1

/-- The loop of lines 224-284 over all adjacent index pairs of the grid. -/
def placeGridLoop (grid_prices : List ℚ) (current_price investment : ℚ)
    (rules : InstrumentRules) : List Order × List ℚ :=
  let num_grids := grid_prices.length - 1
  let amount_per_grid := investment / num_grids
  (List.range num_grids).foldl
    (fun acc i =>
      let lower := grid_prices.getD i 0
      let upper := grid_prices.getD (i + 1) 0
      let quantity0 := amount_per_grid / ((lower + upper) / 2)
      let quantity :=
        adjust_quantity quantity0 rules.min_qty rules.qty_step
          rules.qty_step_decimals
      placePairOrders current_price quantity rules.price_decimals lower upper acc)
    ([], [])

/-- Model of `GridTrading.place_grid_orders` (lines 187-290) in test mode: returns
the placed orders.  If the USDT balance is below the configured investment
the function returns an empty list (lines 199-201); otherwise it runs the
placement loop. -/
def place_grid_orders (grid_prices : List ℚ)
    (current_price usdt_balance investment : ℚ)
    (rules : InstrumentRules) : List Order :=
  if usdt_balance < investment then []
  else (placeGridLoop grid_prices current_price investment rules).1

/-- One OHLC candle as used by `calculate_volatility`; only `high`, `low`
and `close` are read. -/
structure Candle where
  high : ℚ
  low : ℚ
  close : ℚ
deriving DecidableEq, Repr

/-- True-range series of `calculate_volatility` lines 112-116: pandas'
`max(axis=1)` skips the NaN entries `|high-prevClose|`, `|low-prevClose|` of
the first row, so the first true range is just `high - low`.  `prevClose`
carries `close.shift(1)`. -/
def trList (prevClose : Option ℚ) : List Candle → List ℚ
  | [] => []
  | c :: rest =>
    let tr :=
      match prevClose with
      | none => c.high - c.low
      | some pc => max (c.high - c.low) (max |c.high - pc| |c.low - pc|)
    tr :: trList (some c.close) rest

/-- Model of `GridTrading.calculate_volatility` (lines 107-119):
`df['tr'].rolling(window).mean().iloc[-1]`.  The rolling mean at the last
row is NaN when fewer than `window` rows exist, and `iloc[-1]` raises
`IndexError` on an empty frame; both failure modes are modelled as `none`.
With at least `window` candles the result is the mean of the trailing
`window` true ranges. -/
def calculate_volatility (candles : List Candle) (window : ℕ) : Option ℚ :=
  if candles.length = 0 then none
  else if candles.length < window then none
  else
    let trs := trList none candles
    let lastW := trs.drop (trs.length - window)
    some (lastW.sum / window)

/-- Model of `GridTrading._handle_filled_order` (lines 428-468): update the trade
statistics (line 440), return early when fewer than 300 seconds remain until
the next rebalance (lines 443-448), otherwise regenerate the full grid from
fresh market data and place the grid orders (lines 450-468).
`seconds_to_rebalance` models `time_to_rebalance.total_seconds()`;
`ticker_price` is the current ticker used both as the handler's
`current_price` argument and by `place_grid_orders`' own ticker query. -/
def handle_filled_order (s : ProfitStats) (t : Trade) (avgPos : Option ℚ)
    (seconds_to_rebalance : ℚ)
    (lower_price upper_price ticker_price atr usdt_balance investment : ℚ)
    (rules : InstrumentRules) : ProfitStats × List Order :=
  let s1 := update_trade_stats s t avgPos
  if seconds_to_rebalance < 300 then (s1, [])
  else
    let grid := generate_grid_parameters lower_price upper_price ticker_price atr
    (s1, place_grid_orders grid ticker_price usdt_balance investment rules)

/-- Processing of one FILLED order inside `monitor_and_adjust`
(lines 374-376): `update_trade_stats(status)` followed by
`_handle_filled_order(status, current_price)` — which itself calls
`update_trade_stats` again at line 440. -/
def monitor_fill_step (s : ProfitStats) (t : Trade) (avgPos : Option ℚ)
    (seconds_to_rebalance : ℚ)
    (lower_price upper_price ticker_price atr usdt_balance investment : ℚ)
    (rules : InstrumentRules) : ProfitStats × List Order :=
  handle_filled_order (update_trade_stats s t avgPos) t avgPos
    seconds_to_rebalance lower_price upper_price ticker_price atr
    usdt_balance investment rules

/-- The engine attributes persisted / restored around `save_state` and
`load_state`: `profit_stats`, `last_rebalance_time` (a timestamp, modelled
as seconds), the grid snapshot, the last known price and the investment. -/
structure EngineFields where
  profit_stats : ProfitStats
  last_rebalance_time : ℚ
  current_grid_prices : Option (List ℚ)
  last_known_price : Option ℚ
  investment : ℚ
deriving DecidableEq, Repr

/-- The record `save_state` writes to the state file (lines 527-534).
`active_orders` comes from `get_active_orders()`, a live exchange query
passed here as a parameter. -/
structure SavedState where
  profit_stats : ProfitStats
  last_rebalance_time : ℚ
  active_orders : List Order
  current_grid_prices : Option (List ℚ)
  investment : ℚ
  last_known_price : Option ℚ
deriving DecidableEq, Repr

/-- Model of `GridTrading.save_state` (lines 525-541): a full snapshot of the
engine fields plus the live open-order list. -/
def save_state (e : EngineFields) (active : List Order) : SavedState :=
  { profit_stats := e.profit_stats
    last_rebalance_time := e.last_rebalance_time
    active_orders := active
    current_grid_prices := e.current_grid_prices
    investment := e.investment
    last_known_price := e.last_known_price }

/-- Model of `GridTrading._restore_orders` (lines 572-591).  Returns `False` when no
grid was persisted (or the persisted list is empty, `if
self.current_grid_prices:`), when the drift computation raises
(`last_known_price` of `None` → `TypeError`; `0` → `ZeroDivisionError`;
both caught by the function's own `except` which returns `False`), or when
the relative price change exceeds 5%; returns `True` otherwise.  It places
no orders in any case. -/
def restore_orders (grid : Option (List ℚ)) (last_known : Option ℚ)
    (ticker : ℚ) : Bool :=
  match grid with
  | none => false
  | some g =>
    if g.isEmpty then false
    else
      match last_known with
      | none => false
      | some lk =>
        if lk = 0 then false
        else if |ticker - lk| / lk > 5/100 then false
        else true

/-- Model of `GridTrading.load_state` (lines 543-570): when the state file exists and
`ignore_orders` is off it assigns `profit_stats`, `last_rebalance_time`,
`current_grid_prices` and `last_known_price` from the file (lines 550-553)
and, outside test mode, calls `_restore_orders` whose return value is
discarded (line 559); otherwise the grid and last-known price are reset to
`None`.  Returns the assigned four fields (`none` = file path not taken). -/
def load_state (file_exists ignore_orders : Bool) (saved : SavedState) :
    Option (ProfitStats × ℚ × Option (List ℚ) × Option ℚ) :=
  if file_exists && !ignore_orders then
    some (saved.profit_stats, saved.last_rebalance_time,
          saved.current_grid_prices, saved.last_known_price)
  else none

/-- The state-affecting behaviour of `GridTrading.__init__` on a fresh
instance (lines 42-54): run `load_state` (line 43), then unconditionally
reassign `profit_stats` to the zero dict (lines 46-52) and
`last_rebalance_time` to `datetime.now()` (line 53); `investment` is always
the constructor argument (line 15), never read from the file. -/
def init_engine (file_exists ignore_orders : Bool) (saved : SavedState)
    (ctor_investment now : ℚ) : EngineFields :=
  let loaded := load_state file_exists ignore_orders saved
  let grid_lk : Option (List ℚ) × Option ℚ :=
    match loaded with
    | some (_, _, grid, lk) => (grid, lk)
    | none => (none, none)
  { profit_stats := emptyStats
    last_rebalance_time := now
    current_grid_prices := grid_lk.1
    last_known_price := grid_lk.2
    investment := ctor_investment }

/-- The initial-grid guard of `monitor_and_adjust` (line 344): a new ladder
is built only when `current_grid_prices` is absent (`is None`). -/
def needs_initial_grid (e : EngineFields) : Bool :=
  e.current_grid_prices.isNone

theorem update_trade_stats_total_trades (s : ProfitStats) (t : Trade)
    (avgPos : Option ℚ) :
    (update_trade_stats s t avgPos).total_trades = s.total_trades + 1 := by
  unfold update_trade_stats
  rcases t.side <;> simp

theorem update_trade_stats_total_profit_sell (s : ProfitStats) (t : Trade)
    (avgPos : Option ℚ) (h : t.side = Side.SELL) :
    (update_trade_stats s t avgPos).total_profit
      = s.total_profit + sellProfit t avgPos := by
  unfold update_trade_stats sellProfit
  rw [h]
  simp

/-- C6: the grid builder selects the level count from
`volatilityRatio = atr / currentPrice` by `ratio < 0.02 → 20`,
`0.02 ≤ ratio < 0.05 → 15`, `ratio ≥ 0.05 → 10`; in particular the exact
boundary `0.02` (e.g. `currentPrice = 250`, `atr = 5`) selects the 15-level
tier and the exact boundary `0.05` selects the 10-level tier. -/
theorem C6_tier_selection (current atr : ℚ) (_hc : 0 < current)
    (_ha : 0 ≤ atr) :
    (atr / current < 2/100 → numGridsOfRatio (atr / current) = 20) ∧
    (2/100 ≤ atr / current → atr / current < 5/100 →
      numGridsOfRatio (atr / current) = 15) ∧
    (5/100 ≤ atr / current → numGridsOfRatio (atr / current) = 10) ∧
    numGridsOfRatio ((5 : ℚ) / 250) = 15 ∧
    numGridsOfRatio ((5 : ℚ) / 100) = 10 := by
  refine ⟨?_, ?_, ?_, by norm_num [numGridsOfRatio], by norm_num [numGridsOfRatio]⟩
  · intro h
    unfold numGridsOfRatio
    rw [if_pos h]
  · intro h1 h2
    unfold numGridsOfRatio
    rw [if_neg (not_lt.mpr h1), if_pos h2]
  · intro h
    unfold numGridsOfRatio
    rw [if_neg (not_lt.mpr (le_trans (by norm_num) h)),
        if_neg (not_lt.mpr h)]

/-- Witness for C6 at `currentPrice = 250`, `atr = 5` (ratio exactly 0.02). -/
theorem C6_tier_selection_witness :
    (0 : ℚ) < 250 ∧ (0 : ℚ) ≤ 5 ∧ numGridsOfRatio ((5 : ℚ) / 250) = 15 :=
  ⟨by norm_num, by norm_num,
    (C6_tier_selection 250 5 (by norm_num) (by norm_num)).2.2.2.1⟩

/-- Predicate stating that `q` is an integer multiple of `s`, via the
floor characterisation. -/
def isIntMultipleOf (q s : ℚ) : Prop := s * ⌊q / s⌋ = q

theorem isIntMultipleOf_iff {q s : ℚ} (hs : 0 < s) :
    isIntMultipleOf q s ↔ ∃ k : ℤ, q = k * s := by
  constructor
  · intro h
    unfold isIntMultipleOf at h
    exact ⟨⌊q / s⌋, by linarith [h]⟩
  · rintro ⟨k, rfl⟩
    unfold isIntMultipleOf
    rw [mul_div_cancel_right₀ _ (ne_of_gt hs), Int.floor_intCast]
    ring

theorem adjust_quantity_def (q min_qty s : ℚ) (d : ℕ) :
    adjust_quantity q min_qty s d
      = max min_qty (pyRound (max min_qty q - pyMod (max min_qty q) s) d) :=
  rfl

theorem den_one_mul_intCast {x : ℚ} (h : x.den = 1) (k : ℤ) :
    (x * (k : ℚ)).den = 1 := by
  have hx : ((x.num : ℤ) : ℚ) = x := Rat.coe_int_num_of_den_eq_one h
  rw [← hx]
  have : ((x.num : ℤ) : ℚ) * (k : ℚ) = ((x.num * k : ℤ) : ℚ) := by push_cast; ring
  rw [this]
  exact Rat.den_intCast _

/-- C7 counterexample: with `quantity = 0.01`, `minQuantity = 0.05`,
`quantityStep = 0.02` (two fractional digits, as the code computes from
`str(0.02)`), the aligned quantity is `0.05`, which is NOT an integer
multiple of the step `0.02` (the only candidate multiple, `step * ⌊q/step⌋ =
0.04`, differs). -/
theorem C7_counterexample :
    adjust_quantity (1/100) (5/100) (2/100) 2 = 5/100 ∧
    ¬ isIntMultipleOf (5/100 : ℚ) (2/100) := by
  constructor
  · norm_num [adjust_quantity, pyMod, pyRound, rhe]
  · norm_num [isIntMultipleOf]

/-- C7 amended: for every `quantity`, `minQuantity > 0` and
`quantityStep > 0` such that the step has at most `d` fractional digits
(`d` being the decimal count the code derives from `str(step)`) and
`minQuantity` is itself an integer multiple of the step, the aligned
quantity is never below `minQuantity` and is an integer multiple of the
step.  (The multiple property genuinely needs the `minQuantity` side
condition: see the counterexample.) -/
theorem C7_amended_alignment (q min_qty s : ℚ) (d : ℕ) (hs : 0 < s)
    (_hm : 0 < min_qty) (hd : (s * 10 ^ d).den = 1)
    (hmult : isIntMultipleOf min_qty s) :
    min_qty ≤ adjust_quantity q min_qty s d ∧
    isIntMultipleOf (adjust_quantity q min_qty s d) s := by
  rw [adjust_quantity_def]
  refine ⟨le_max_left _ _, ?_⟩
  have hstep : max min_qty q - pyMod (max min_qty q) s
      = s * ⌊max min_qty q / s⌋ := by
    unfold pyMod; ring
  rw [hstep]
  have hden : (s * ⌊max min_qty q / s⌋ * 10 ^ d).den = 1 := by
    have : s * ⌊max min_qty q / s⌋ * 10 ^ d
        = s * 10 ^ d * ((⌊max min_qty q / s⌋ : ℤ) : ℚ) := by ring
    rw [this]
    exact den_one_mul_intCast hd _
  rw [pyRound_eq_self hden]
  rcases le_total min_qty (s * ⌊max min_qty q / s⌋) with h | h
  · rw [max_eq_right h]
    exact (isIntMultipleOf_iff hs).mpr ⟨⌊max min_qty q / s⌋, by ring⟩
  · rw [max_eq_left h]
    exact hmult

/-- Witness for C7 amended at `quantity = 1`, `minQuantity = 0.01`,
`quantityStep = 0.01`, `d = 2`. -/
theorem C7_amended_alignment_witness :
    (0 : ℚ) < 1/100 ∧ (((1:ℚ)/100) * 10 ^ 2).den = 1 ∧
    isIntMultipleOf ((1:ℚ)/100) (1/100) ∧
    ((1:ℚ)/100 ≤ adjust_quantity 1 (1/100) (1/100) 2 ∧
      isIntMultipleOf (adjust_quantity 1 (1/100) (1/100) 2) (1/100)) :=
  ⟨by norm_num, by norm_num, by norm_num [isIntMultipleOf],
    C7_amended_alignment 1 (1/100) (1/100) 2 (by norm_num) (by norm_num)
      (by norm_num) (by norm_num [isIntMultipleOf])⟩

/-- C8 counterexample: alignment is NOT idempotent for every already-aligned
quantity.  With `quantityStep = 1.5e-05` the code derives
`step_size_decimal = 5` (`str(1.5e-05)` is `'1.5e-05'`, whose part after
the dot, `'5e-05'`, has length 5), one digit short of the step's 6
fractional digits.  The quantity `q = 4.5e-05 = 9/200000` is aligned
(`q ≥ minQuantity = 1.5e-05` and `q = 3 × step`), yet `round(q, 5)` maps it
to `4e-05 = 1/25000 ≠ q`. -/
theorem C8_counterexample :
    (3:ℚ)/200000 ≤ 9/200000 ∧
    isIntMultipleOf ((9:ℚ)/200000) (3/200000) ∧
    adjust_quantity (9/200000) (3/200000) (3/200000) 5 = 1/25000 ∧
    adjust_quantity (9/200000) (3/200000) (3/200000) 5 ≠ 9/200000 := by
  refine ⟨by norm_num, by norm_num [isIntMultipleOf], ?_, ?_⟩
  · norm_num [adjust_quantity, pyMod, pyRound, rhe]
  · norm_num [adjust_quantity, pyMod, pyRound, rhe]

/-- C8 amended: quantity alignment is idempotent only when the step
survives the code's decimal-precision rounding — if `q` is at least
`minQuantity` and an integer multiple of `quantityStep`, and the step's
fractional digits fit in the code-derived decimal count `d` (i.e.
`quantityStep * 10^d` is an integer, which fails for steps like `1.5e-05`
whose `str` form underestimates `d`), then aligning `q` returns `q`
unchanged. -/
theorem C8_alignment_idempotent (q min_qty s : ℚ) (d : ℕ) (_hs : 0 < s)
    (hd : (s * 10 ^ d).den = 1) (hq : min_qty ≤ q)
    (hmult : isIntMultipleOf q s) :
    adjust_quantity q min_qty s d = q := by
  rw [adjust_quantity_def]
  rw [max_eq_right hq]
  have hmod : pyMod q s = 0 := by
    unfold pyMod isIntMultipleOf at *
    linarith [hmult]
  rw [hmod, sub_zero]
  have hden : (q * 10 ^ d).den = 1 := by
    have h1 : s * ((⌊q / s⌋ : ℤ) : ℚ) = q := hmult
    have hmul : q * 10 ^ d = s * 10 ^ d * ((⌊q / s⌋ : ℤ) : ℚ) := by
      calc q * 10 ^ d = s * ((⌊q / s⌋ : ℤ) : ℚ) * 10 ^ d := by rw [h1]
        _ = s * 10 ^ d * ((⌊q / s⌋ : ℤ) : ℚ) := by ring
    rw [hmul]
    exact den_one_mul_intCast hd _
  rw [pyRound_eq_self hden]
  exact max_eq_right hq

/-- Witness for C8 at `q = 0.003`, `minQuantity = 0.001`,
`quantityStep = 0.001`, `d = 3`. -/
theorem C8_alignment_idempotent_witness :
    (0 : ℚ) < 1/1000 ∧ (((1:ℚ)/1000) * 10 ^ 3).den = 1 ∧
    (1:ℚ)/1000 ≤ 3/1000 ∧ isIntMultipleOf ((3:ℚ)/1000) (1/1000) ∧
    adjust_quantity (3/1000) (1/1000) (1/1000) 3 = 3/1000 :=
  ⟨by norm_num, by norm_num, by norm_num, by norm_num [isIntMultipleOf],
    C8_alignment_idempotent (3/1000) (1/1000) (1/1000) 3 (by norm_num)
      (by norm_num) (by norm_num) (by norm_num [isIntMultipleOf])⟩

/-- C9 counterexample: processing a FILLED BUY order (price 100, quantity 1)
from fresh statistics does NOT leave ProfitStats unchanged —
`total_trades` becomes 1 (and `buy_trades` becomes 1). -/
theorem C9_counterexample :
    update_trade_stats emptyStats ⟨Side.BUY, 100, 1, 0⟩ none ≠ emptyStats ∧
    (update_trade_stats emptyStats ⟨Side.BUY, 100, 1, 0⟩ none).total_trades = 1 ∧
    (update_trade_stats emptyStats ⟨Side.BUY, 100, 1, 0⟩ none).buy_trades = 1 := by
  refine ⟨?_, by simp [update_trade_stats, emptyStats], by simp [update_trade_stats, emptyStats]⟩
  intro h
  have := congrArg ProfitStats.total_trades h
  simp [update_trade_stats, emptyStats] at this

/-- C9 amended: a FILLED BUY mutates only the counters `total_trades` and
`buy_trades`, leaving `total_profit`, `sell_trades` and `grid_profits`
unchanged; `total_profit` and `grid_profits` are mutated only by SELL
fills, `total_profit` changing by `(price − avgCost)·qty − fee`, which is
not necessarily nonnegative. -/
theorem C9_amended_stats_frame (s : ProfitStats) (t : Trade)
    (avgPos : Option ℚ) :
    (t.side = Side.BUY →
      (update_trade_stats s t avgPos).total_profit = s.total_profit ∧
      (update_trade_stats s t avgPos).grid_profits = s.grid_profits ∧
      (update_trade_stats s t avgPos).sell_trades = s.sell_trades ∧
      (update_trade_stats s t avgPos).total_trades = s.total_trades + 1 ∧
      (update_trade_stats s t avgPos).buy_trades = s.buy_trades + 1) ∧
    (t.side = Side.SELL →
      (update_trade_stats s t avgPos).total_profit
        = s.total_profit + sellProfit t avgPos ∧
      (update_trade_stats s t avgPos).grid_profits
        = s.grid_profits ++ [sellProfit t avgPos]) := by
  constructor
  · intro h
    simp [update_trade_stats, h]
  · intro h
    simp [update_trade_stats, sellProfit, h]

/-- Witness for C9 amended at a BUY fill on nonzero running statistics. -/
theorem C9_amended_stats_frame_witness :
    (update_trade_stats ⟨7, 4, 2, 2, [3]⟩ ⟨Side.BUY, 100, 1, 0⟩ none).total_profit = 7 ∧
    (update_trade_stats ⟨7, 4, 2, 2, [3]⟩ ⟨Side.BUY, 100, 1, 0⟩ none).total_trades = 4 + 1 :=
  ⟨((C9_amended_stats_frame ⟨7, 4, 2, 2, [3]⟩ ⟨Side.BUY, 100, 1, 0⟩ none).1 rfl).1,
    ((C9_amended_stats_frame ⟨7, 4, 2, 2, [3]⟩ ⟨Side.BUY, 100, 1, 0⟩ none).1 rfl).2.2.2.1⟩

theorem handle_filled_order_stats (s : ProfitStats) (t : Trade)
    (avgPos : Option ℚ) (sec lower upper ticker atr bal inv : ℚ)
    (rules : InstrumentRules) :
    (handle_filled_order s t avgPos sec lower upper ticker atr bal inv rules).1
      = update_trade_stats s t avgPos := by
  unfold handle_filled_order
  split <;> rfl

/-- C10: one FILLED order observed in a monitoring iteration has the
statistics update applied twice — once in the monitoring loop and once
inside `_handle_filled_order` — so each fill increments `total_trades`
by 2, and a SELL fill adds its computed profit to `total_profit` twice. -/
theorem C10_stats_double_update (s : ProfitStats) (t : Trade)
    (avgPos : Option ℚ) (sec lower upper ticker atr bal inv : ℚ)
    (rules : InstrumentRules) :
    (monitor_fill_step s t avgPos sec lower upper ticker atr bal inv rules).1.total_trades
      = s.total_trades + 2 ∧
    (t.side = Side.SELL →
      (monitor_fill_step s t avgPos sec lower upper ticker atr bal inv rules).1.total_profit
        = s.total_profit + 2 * sellProfit t avgPos) := by
  unfold monitor_fill_step
  rw [handle_filled_order_stats]
  constructor
  · rw [update_trade_stats_total_trades, update_trade_stats_total_trades]
  · intro h
    rw [update_trade_stats_total_profit_sell _ _ _ h,
        update_trade_stats_total_profit_sell _ _ _ h]
    ring

/-- Witness for C10 at a concrete SELL fill (price 100, qty 1, fee 2). -/
theorem C10_stats_double_update_witness :
    (monitor_fill_step ⟨0, 0, 0, 0, []⟩ ⟨Side.SELL, 100, 1, 2⟩ none 100
        150 350 250 5 2000 1500 ⟨1/1000, 1/1000, 3, 2⟩).1.total_trades = 0 + 2 ∧
    (monitor_fill_step ⟨0, 0, 0, 0, []⟩ ⟨Side.SELL, 100, 1, 2⟩ none 100
        150 350 250 5 2000 1500 ⟨1/1000, 1/1000, 3, 2⟩).1.total_profit
      = 0 + 2 * sellProfit ⟨Side.SELL, 100, 1, 2⟩ none :=
  ⟨(C10_stats_double_update ⟨0, 0, 0, 0, []⟩ ⟨Side.SELL, 100, 1, 2⟩ none 100
      150 350 250 5 2000 1500 ⟨1/1000, 1/1000, 3, 2⟩).1,
    (C10_stats_double_update ⟨0, 0, 0, 0, []⟩ ⟨Side.SELL, 100, 1, 2⟩ none 100
      150 350 250 5 2000 1500 ⟨1/1000, 1/1000, 3, 2⟩).2 rfl⟩

theorem trList_nonneg (candles : List Candle)
    (hc : ∀ c ∈ candles, c.low ≤ c.high) :
    ∀ pc : Option ℚ, ∀ x ∈ trList pc candles, 0 ≤ x := by
  induction candles with
  | nil => intro pc x hx; simp [trList] at hx
  | cons c rest ih =>
    intro pc x hx
    simp only [trList] at hx
    rcases List.mem_cons.mp hx with h | h
    · subst h
      rcases pc with _ | p
      · exact sub_nonneg.mpr (hc c (List.mem_cons_self c rest))
      · exact le_trans (abs_nonneg _)
          (le_trans (le_max_left _ _) (le_max_right _ _))
    · exact ih (fun c' hc' => hc c' (List.mem_cons_of_mem c hc')) _ x h

theorem trList_flat :
    ∀ (n : ℕ) (pc : Option ℚ), pc = none ∨ pc = some 100 →
      trList pc (List.replicate n ⟨100, 100, 100⟩) = List.replicate n 0 := by
  intro n
  induction n with
  | zero => intro pc _; simp [trList]
  | succ m ih =>
    intro pc hpc
    rw [List.replicate_succ, List.replicate_succ]
    simp only [trList]
    rcases hpc with h | h <;> subst h
    · simp only [ih (some 100) (Or.inr rfl)]
      norm_num
    · simp only [ih (some 100) (Or.inr rfl)]
      norm_num

theorem calculate_volatility_flat (n window : ℕ) (h0 : n ≠ 0)
    (hle : ¬ n < window) :
    calculate_volatility (List.replicate n ⟨100, 100, 100⟩) window = some 0 := by
  unfold calculate_volatility
  simp only [List.length_replicate]
  rw [if_neg h0, if_neg hle, trList_flat n none (Or.inl rfl)]
  simp

/-- C4 counterexample: a flat candle series (high = low = close = 100)
refutes strict positivity — with 25 candles (≥ window+1 = 25) the ATR is 0,
not positive; and with only 24 candles (< window+1) the code still returns
a value (again 0) instead of failing: no `InsufficientDataError` exists in
the code. -/
theorem C4_counterexample :
    calculate_volatility (List.replicate 25 ⟨100, 100, 100⟩) 24 = some 0 ∧
    calculate_volatility (List.replicate 24 ⟨100, 100, 100⟩) 24 = some 0 :=
  ⟨calculate_volatility_flat 25 24 (by norm_num) (by norm_num),
    calculate_volatility_flat 24 24 (by norm_num) (by norm_num)⟩

/-- C4 amended: for every candle series with `low ≤ high` and window ≥ 1,
the estimator returns a NONNEGATIVE scalar (zero is possible, e.g. for
flat candles) whenever at least `window` candles are supplied — `window`,
not `window+1`, suffices, because pandas' row-wise max skips the NaN
true-range components of the first row — and returns NaN / fails with
`IndexError` (modelled as `none`, no `InsufficientDataError` exists)
when fewer than `window` candles are supplied. -/
theorem C4_amended_volatility (candles : List Candle) (window : ℕ)
    (_hw : 1 ≤ window) (hc : ∀ c ∈ candles, c.low ≤ c.high) :
    (window ≤ candles.length →
      ∃ v, calculate_volatility candles window = some v ∧ 0 ≤ v) ∧
    (candles.length < window → calculate_volatility candles window = none) := by
  constructor
  · intro hlen
    have hne : candles.length ≠ 0 := by omega
    unfold calculate_volatility
    rw [if_neg hne, if_neg (by omega)]
    refine ⟨_, rfl, ?_⟩
    apply div_nonneg
    · apply List.sum_nonneg
      intro x hx
      exact trList_nonneg candles hc none x (List.mem_of_mem_drop hx)
    · exact Nat.cast_nonneg window
  · intro hlen
    unfold calculate_volatility
    by_cases h0 : candles.length = 0
    · rw [if_pos h0]
    · rw [if_neg h0, if_pos hlen]

/-- Witness for C4 amended on 24 candles with `high = 101 > low = 100`. -/
theorem C4_amended_volatility_witness :
    (1 : ℕ) ≤ 24 ∧
    ∃ v, calculate_volatility (List.replicate 24 ⟨101, 100, 100⟩) 24 = some v ∧
      0 ≤ v :=
  ⟨by norm_num,
    (C4_amended_volatility (List.replicate 24 ⟨101, 100, 100⟩) 24 (by norm_num)
        (fun c hc => by rw [List.eq_of_mem_replicate hc]; norm_num)).1
      (by simp)⟩

theorem grid_map_spec (lower upper s e : ℚ) (n : ℕ) (hn : 0 < n)
    (hls : lower ≤ s) (hse : s ≤ e) (heu : e ≤ upper) :
    ((List.range (n+1)).map (fun i : ℕ => pyRound (s + (i:ℚ) * ((e - s)/n)) 8)).length
        = n + 1 ∧
    List.Chain' (· ≤ ·)
      ((List.range (n+1)).map (fun i : ℕ => pyRound (s + (i:ℚ) * ((e - s)/n)) 8)) ∧
    ∀ x ∈ (List.range (n+1)).map (fun i : ℕ => pyRound (s + (i:ℚ) * ((e - s)/n)) 8),
      pyRound lower 8 ≤ x ∧ x ≤ pyRound upper 8 := by
  have hnQ : (0:ℚ) < (n:ℚ) := by exact_mod_cast hn
  have hst : 0 ≤ (e - s)/(n:ℚ) := div_nonneg (by linarith) (le_of_lt hnQ)
  refine ⟨by simp, ?_, ?_⟩
  · rw [List.chain'_map]
    have hsucc : n + 1 = Nat.succ n := rfl
    rw [hsucc, List.chain'_range_succ]
    intro m _hm
    apply pyRound_mono
    have hc : (m:ℚ) ≤ ((m+1 : ℕ) : ℚ) := by exact_mod_cast Nat.le_succ m
    have := mul_le_mul_of_nonneg_right hc hst
    linarith
  · intro x hx
    obtain ⟨i, hi, rfl⟩ := List.mem_map.mp hx
    have hiR : i < n + 1 := List.mem_range.mp hi
    have hiQ : (i:ℚ) ≤ (n:ℚ) := by exact_mod_cast Nat.lt_succ_iff.mp hiR
    have h1 : 0 ≤ (i:ℚ) * ((e - s)/n) := mul_nonneg (Nat.cast_nonneg i) hst
    have h2 : (i:ℚ) * ((e - s)/n) ≤ (n:ℚ) * ((e - s)/n) :=
      mul_le_mul_of_nonneg_right hiQ hst
    have h3 : (n:ℚ) * ((e - s)/n) = e - s := by field_simp
    constructor
    · exact pyRound_mono 8 (by linarith)
    · exact pyRound_mono 8 (by linarith)

theorem generate_grid_prices_spec (lower upper center step : ℚ) (n : ℕ)
    (hn : 0 < n) (hlc : lower ≤ center) (hcu : center ≤ upper)
    (hstep : 0 ≤ step) :
    (generate_grid_prices lower upper center step n).length = n + 1 ∧
    List.Chain' (· ≤ ·) (generate_grid_prices lower upper center step n) ∧
    ∀ x ∈ generate_grid_prices lower upper center step n,
      pyRound lower 8 ≤ x ∧ x ≤ pyRound upper 8 := by
  have hhalf : 0 ≤ ((n:ℚ) * step) / 2 := by positivity
  have heq : generate_grid_prices lower upper center step n
      = (List.range (n+1)).map (fun i : ℕ => pyRound
          (max lower (center - ((n:ℚ) * step) / 2)
            + (i:ℚ) * ((min upper (center + ((n:ℚ) * step) / 2)
                     - max lower (center - ((n:ℚ) * step) / 2)) / n)) 8) := rfl
  rw [heq]
  exact grid_map_spec lower upper _ _ n hn (le_max_left _ _)
    (max_le (le_min (le_trans hlc hcu) (by linarith))
      (le_min (by linarith) (by linarith)))
    (min_le_left _ _)

/-- C5 counterexample: with bounds `[150, 150 + 10⁻⁸]` (lowerBound <
upperBound), current price 150 and ATR 0, every one of the 21 generated
prices rounds to 150 — the ladder is returned with duplicate (hence not
strictly increasing) prices, and no `DegenerateLadderError` is raised
(the error type does not exist in the code). -/
theorem C5_counterexample :
    generate_grid_parameters 150 (150 + 1/100000000) 150 0
        = List.replicate 21 150 ∧
    ¬ List.Chain' (· < ·)
        (generate_grid_parameters 150 (150 + 1/100000000) 150 0) := by
  have h : generate_grid_parameters 150 (150 + 1/100000000) 150 0
      = List.replicate 21 150 := by
    norm_num [generate_grid_parameters, generate_grid_prices, numGridsOfRatio,
      pyRound, rhe, List.range_succ, List.replicate]
  refine ⟨h, ?_⟩
  rw [h]
  intro hchain
  rw [List.chain'_iff_get] at hchain
  have h01 := hchain 0 (by simp)
  simp at h01

/-- C5 amended: for `lowerBound ≤ upperBound` and `currentPrice > 0` (at
`currentPrice = 0` the source raises `ZeroDivisionError` at
`atr / current_price` instead of returning a ladder), the builder returns
exactly `levelCount+1` prices for the selected volatility tier,
monotonically NON-decreasing (strict increase is not enforced: see the
counterexample), all within the rounded bounds
`[round₈ lowerBound, round₈ upperBound]`; rounding collapse yields
duplicate prices instead of a `DegenerateLadderError`. -/
theorem C5_amended_ladder (lower upper current atr : ℚ) (h : lower ≤ upper)
    (_hc : 0 < current) :
    (generate_grid_parameters lower upper current atr).length
        = numGridsOfRatio (atr / current) + 1 ∧
    List.Chain' (· ≤ ·) (generate_grid_parameters lower upper current atr) ∧
    ∀ x ∈ generate_grid_parameters lower upper current atr,
      pyRound lower 8 ≤ x ∧ x ≤ pyRound upper 8 := by
  have hn : 0 < numGridsOfRatio (atr / current) := by
    unfold numGridsOfRatio; split_ifs <;> norm_num
  have heq : generate_grid_parameters lower upper current atr
      = generate_grid_prices lower upper (min (max current lower) upper)
          ((upper - lower) / (numGridsOfRatio (atr / current) : ℚ))
          (numGridsOfRatio (atr / current)) := rfl
  rw [heq]
  exact generate_grid_prices_spec _ _ _ _ _ hn
    (le_min (le_max_right _ _) h) (min_le_right _ _)
    (div_nonneg (by linarith) (Nat.cast_nonneg _))

/-- Witness for C5 amended at the spec scenario `(150, 350, 250, 5)`. -/
theorem C5_amended_ladder_witness :
    (150 : ℚ) ≤ 350 ∧ (0 : ℚ) < 250 ∧
    (generate_grid_parameters 150 350 250 5).length
      = numGridsOfRatio ((5:ℚ) / 250) + 1 :=
  ⟨by norm_num, by norm_num,
    (C5_amended_ladder 150 350 250 5 (by norm_num) (by norm_num)).1⟩

/-- C1 counterexample: a FILLED BUY order at price 100, quantity 1, observed
with one hour (≥ 5 minutes) until the next rebalance, with ticker price 250,
ATR 50, configured bounds `[150, 350]`, balance 2000, investment 1000 and
instrument rules (min qty 0.001, step 0.001, tick 0.01), does NOT produce a
single compensating SELL order at 101: the handler regenerates the full grid
and places ten grid orders, none of which is at price 101 (no percentage
offset from the fill price exists anywhere in the code). -/
theorem C1_counterexample :
    (handle_filled_order emptyStats ⟨Side.BUY, 100, 1, 0⟩ none 3600
        150 350 250 50 2000 1000 ⟨1/1000, 1/1000, 3, 2⟩).2 =
      [⟨Side.BUY, 170, 5/8⟩, ⟨Side.BUY, 190, 111/200⟩, ⟨Side.BUY, 210, 1/2⟩,
       ⟨Side.BUY, 230, 227/500⟩, ⟨Side.SELL, 250, 52/125⟩,
       ⟨Side.SELL, 270, 48/125⟩, ⟨Side.SELL, 290, 357/1000⟩,
       ⟨Side.SELL, 310, 333/1000⟩, ⟨Side.SELL, 330, 39/125⟩,
       ⟨Side.SELL, 350, 147/500⟩] ∧
    (handle_filled_order emptyStats ⟨Side.BUY, 100, 1, 0⟩ none 3600
        150 350 250 50 2000 1000 ⟨1/1000, 1/1000, 3, 2⟩).2 ≠
      [⟨Side.SELL, 101, 1⟩] := by
  have h : (handle_filled_order emptyStats ⟨Side.BUY, 100, 1, 0⟩ none 3600
        150 350 250 50 2000 1000 ⟨1/1000, 1/1000, 3, 2⟩).2 =
      [⟨Side.BUY, 170, 5/8⟩, ⟨Side.BUY, 190, 111/200⟩, ⟨Side.BUY, 210, 1/2⟩,
       ⟨Side.BUY, 230, 227/500⟩, ⟨Side.SELL, 250, 52/125⟩,
       ⟨Side.SELL, 270, 48/125⟩, ⟨Side.SELL, 290, 357/1000⟩,
       ⟨Side.SELL, 310, 333/1000⟩, ⟨Side.SELL, 330, 39/125⟩,
       ⟨Side.SELL, 350, 147/500⟩] := by
    norm_num [handle_filled_order, place_grid_orders, placeGridLoop,
      placePairOrders, generate_grid_parameters, generate_grid_prices,
      numGridsOfRatio, adjust_quantity, pyMod, pyRound, rhe,
      update_trade_stats, List.range_succ]
  refine ⟨h, ?_⟩
  rw [h]
  simp

/-- C1 amended: on a FILLED order observed with at least 5 minutes (300
seconds) remaining until the next rebalance, the engine does not place one
offset compensating order; it regenerates the full grid from fresh market
data (`generate_grid_parameters`) and places the resulting grid orders
(`place_grid_orders`) across the configured range — the output is exactly
the full-grid placement and does not depend on the filled order's price or
side. -/
theorem C1_amended_full_grid_regeneration (s : ProfitStats) (t : Trade)
    (avgPos : Option ℚ) (sec lower upper ticker atr bal inv : ℚ)
    (rules : InstrumentRules) (h : 300 ≤ sec) :
    (handle_filled_order s t avgPos sec lower upper ticker atr bal inv
        rules).2
      = place_grid_orders (generate_grid_parameters lower upper ticker atr)
          ticker bal inv rules := by
  unfold handle_filled_order
  rw [if_neg (not_lt.mpr h)]

/-- Witness for C1 amended at the counterexample's concrete input. -/
theorem C1_amended_full_grid_regeneration_witness :
    (300 : ℚ) ≤ 3600 ∧
    (handle_filled_order emptyStats ⟨Side.BUY, 100, 1, 0⟩ none 3600
        150 350 250 50 2000 1000 ⟨1/1000, 1/1000, 3, 2⟩).2
      = place_grid_orders (generate_grid_parameters 150 350 250 50)
          250 2000 1000 ⟨1/1000, 1/1000, 3, 2⟩ :=
  ⟨by norm_num,
    C1_amended_full_grid_regeneration emptyStats ⟨Side.BUY, 100, 1, 0⟩ none
      3600 150 350 250 50 2000 1000 ⟨1/1000, 1/1000, 3, 2⟩ (by norm_num)⟩

/-- C2 (code bug): with a persisted ladder `[95, 100, 105]`, persisted
last-known price 100 and current ticker price 200 (100% drift, far above
the 5% threshold), `_restore_orders` returns `False` — but `load_state`
discards that return value, `current_grid_prices` keeps the stale persisted
ladder, and `monitor_and_adjust`'s initial-grid guard (which rebuilds only
when the grid is `None`) therefore does NOT rebuild: the engine resumes the
stale ladder in contradiction with the spec's >5% rebuild rule. -/
theorem C2_drift_result_discarded :
    restore_orders (some [95, 100, 105]) (some 100) 200 = false ∧
    (init_engine true false
        ⟨⟨5, 3, 1, 2, [5]⟩, 1000, [], some [95, 100, 105], 999, some 100⟩
        999 2000).current_grid_prices = some [95, 100, 105] ∧
    needs_initial_grid (init_engine true false
        ⟨⟨5, 3, 1, 2, [5]⟩, 1000, [], some [95, 100, 105], 999, some 100⟩
        999 2000) = false := by
  refine ⟨?_, rfl, rfl⟩
  norm_num [restore_orders]

/-- C3 (code bug): saving the engine state and loading it in a fresh
instance does not restore it — `__init__` calls `load_state` and then
unconditionally reassigns `profit_stats` to zeros and
`last_rebalance_time` to the current time, so the loaded statistics and
rebalance timestamp are overwritten (only the grid snapshot and last known
price survive), and `investment` is taken from the constructor, never from
the file. -/
theorem C3_roundtrip_resets_stats :
    init_engine true false
        (save_state ⟨⟨5, 3, 1, 2, [5]⟩, 1000, some [95, 100, 105], some 100, 999⟩ [])
        999 2000
      ≠ (⟨⟨5, 3, 1, 2, [5]⟩, 1000, some [95, 100, 105], some 100, 999⟩ : EngineFields) ∧
    (init_engine true false
        (save_state ⟨⟨5, 3, 1, 2, [5]⟩, 1000, some [95, 100, 105], some 100, 999⟩ [])
        999 2000).profit_stats = emptyStats ∧
    (init_engine true false
        (save_state ⟨⟨5, 3, 1, 2, [5]⟩, 1000, some [95, 100, 105], some 100, 999⟩ [])
        999 2000).last_rebalance_time = 2000 ∧
    (init_engine true false
        (save_state ⟨⟨5, 3, 1, 2, [5]⟩, 1000, some [95, 100, 105], some 100, 999⟩ [])
        999 2000).current_grid_prices = some [95, 100, 105] := by
  refine ⟨?_, rfl, rfl, rfl⟩
  intro h
  have := congrArg EngineFields.last_rebalance_time h
  norm_num [init_engine, load_state, save_state] at this

end GridBot
